import Mathlib

/-!
Shallow embedding of the tool-invocation relay of the SaaS-marketplace
repository: the FastAPI handler trigger_tool in apps/backend/main.py
(lines 153-182 of the README that carries the backend source), plus the
process startup around it, with proofs of the specification claims.
-/

/-- JSON values, as produced by Python json.loads and consumed by json.dumps.
Numbers are modelled as integers; the handler never computes with them, it
only moves them around. -/
inductive Json where
  | null
  | bool (b : Bool)
  | num (n : Int)
  | str (s : String)
  | arr (elems : List Json)
  | obj (fields : List (String × Json))

/-- Python dict lookup as an option: some v when the key is present.
Parsed Python dicts have pairwise distinct keys, so first-match lookup
agrees with the dict. -/
def dictFind : List (String × Json) → String → Option Json
  | [], _ => none
  | (k, v) :: rest, key => if k = key then some v else dictFind rest key

/-- Python dict.get with default None, as in data.get on lines 172-174 of
the source: a missing key yields Python None, which json serialises as
null. -/
def dictGet (fields : List (String × Json)) (key : String) : Json :=
  (dictFind fields key).getD Json.null

/-- The two environment variables the handler reads through os.getenv on
lines 176-177; os.getenv returns None when the variable is unset, hence
Option. -/
structure Config where
  openai_api_key : Option String
  n8n_webhook_url : Option String

/-- Python str() applied to an optional string: the f-string on line 176
renders a missing OPENAI_API_KEY as the text None. -/
def pyStr : Option String → String
  | some s => s
  | none => "None"

/-- The Authorization header value built on line 176 of the source. -/
def bearerHeader (key : Option String) : String :=
  "Bearer " ++ pyStr key

/-- The outbound HTTP POST handed to the httpx client on line 180: target
URL, Authorization header value, and JSON body. -/
structure OutboundRequest where
  url : String
  authHeader : String
  body : Json

/-- An HTTP response from the downstream automation endpoint: status code,
response headers, and the outcome of parsing its body as JSON (none when
the body is not valid JSON, in which case res.json() raises). -/
structure DownstreamResponse where
  status : Nat
  headers : List (String × String)
  jsonBody : Option Json

/-- Outcome of the outbound call: either a downstream response, or an httpx
exception (connection failure or timeout). -/
inductive DownstreamOutcome where
  | ok (res : DownstreamResponse)
  | netFail

/-- The same downstream outcome with the response headers replaced; used to
state that the handler never looks at downstream headers. -/
def DownstreamOutcome.withHeaders : DownstreamOutcome → List (String × String) → DownstreamOutcome
  | DownstreamOutcome.ok res, h => DownstreamOutcome.ok { res with headers := h }
  | DownstreamOutcome.netFail, _ => DownstreamOutcome.netFail

/-- Body of the response the inbound caller receives: either a JSON value
(FastAPI serialising the handler's return value) or plain text (Starlette's
uncaught-exception handler). -/
inductive RespBody where
  | jsonBody (j : Json)
  | textBody (s : String)

/-- What the inbound caller observes: HTTP status and body. -/
structure CallerResponse where
  status : Nat
  body : RespBody

/-- The response Starlette's ServerErrorMiddleware produces when the handler
raises an uncaught exception: a plain-text 500. -/
def internalServerError : CallerResponse :=
  { status := 500, body := RespBody.textBody "Internal Server Error" }

/-- Everything observable about one handling of an inbound request: the
outbound POSTs attempted, in order, and the response returned to the
caller. The handler touches no store, so there is no persistence channel
to record. -/
structure HandlerTrace where
  calls : List OutboundRequest
  response : CallerResponse

/-- Lines 180-181 of the source after the POST completes: return res.json().
A response whose body parses as JSON becomes the handler's return value,
which FastAPI serialises with status 200 whatever the downstream status
was; a body that is not JSON makes res.json() raise, and an httpx exception
propagates, both ending in the 500 handler. -/
def respond : DownstreamOutcome → CallerResponse
  | DownstreamOutcome.netFail => internalServerError
  | DownstreamOutcome.ok res =>
      match res.jsonBody with
      | none => internalServerError
      | some j => { status := 200, body := RespBody.jsonBody j }

/-- The trigger_tool handler, lines 170-181 of the source, wrapped in the
FastAPI request cycle. The inbound body argument is the outcome of await
request.json(): none when the raw body is not valid JSON (json.loads
raises, giving the 500 handler and no outbound call). A body that is valid
JSON but not an object makes data.get raise AttributeError, likewise with
no outbound call. A missing n8n_WEBHOOK_URL makes client.post raise before
any network traffic. Otherwise exactly one POST is issued, carrying the
renamed fields and the bearer header, and respond gives the caller's view
of its outcome. -/
def trigger_tool (cfg : Config) (downstream : OutboundRequest → DownstreamOutcome) :
    Option Json → HandlerTrace
  | none => { calls := [], response := internalServerError }
  | some (Json.obj data) =>
      match cfg.n8n_webhook_url with
      | none => { calls := [], response := internalServerError }
      | some url =>
          let req : OutboundRequest :=
            { url := url
              authHeader := bearerHeader cfg.openai_api_key
              body := Json.obj [("user", dictGet data "user_id"),
                ("tool", dictGet data "tool_id"), ("input", dictGet data "input")] }
          { calls := [req], response := respond (downstream req) }
  | some _ => { calls := [], response := internalServerError }

/-- Lines 159-167 of the source: load_dotenv(), the FastAPI() application
object, and the CORS middleware registration. None of these reads or
validates OPENAI_API_KEY or n8n_WEBHOOK_URL, so startup succeeds for every
configuration. -/
def startup (_cfg : Config) : Except String Unit :=
  Except.ok ()

/-- The process state visible to the handler: os.environ, the only
process-global the handler touches. The source contains no assignment to
any global, so handling a request leaves it unchanged. -/
structure ProcState where
  env : Config

/-- One inbound request handled against the process state: the handler only
reads the environment, so the state passes through unchanged. -/
def handleWithState (st : ProcState) (downstream : OutboundRequest → DownstreamOutcome)
    (body : Option Json) : ProcState × HandlerTrace :=
  (st, trigger_tool st.env downstream body)

/-- Sequential handling of a list of inbound requests, threading the
process state through from one request to the next. -/
def runSeq (downstream : OutboundRequest → DownstreamOutcome) :
    ProcState → List (Option Json) → ProcState × List HandlerTrace
  | st, [] => (st, [])
  | st, b :: bs =>
      let p := handleWithState st downstream b
      let q := runSeq downstream p.1 bs
      (q.1, p.2 :: q.2)

/-- A configuration with both environment variables set. -/
def cfgStd : Config :=
  { openai_api_key := some "sk-test", n8n_webhook_url := some "https://n8n.example/webhook" }

/-- A configuration with both environment variables unset. -/
def cfgNone : Config :=
  { openai_api_key := none, n8n_webhook_url := none }

/-- A configuration with the credential unset but the URL set. -/
def cfgNoKey : Config :=
  { openai_api_key := none, n8n_webhook_url := some "https://n8n.example/webhook" }

/-- A configuration with the URL unset but the credential set. -/
def cfgNoUrl : Config :=
  { openai_api_key := some "sk-test", n8n_webhook_url := none }

/-- A downstream that always answers 200 with a JSON body. -/
def dsOk : OutboundRequest → DownstreamOutcome :=
  fun _ => DownstreamOutcome.ok
    { status := 200, headers := [], jsonBody := some (Json.obj [("result", Json.str "ok")]) }

/-- A downstream that always answers 201 with a JSON body. -/
def ds201 : OutboundRequest → DownstreamOutcome :=
  fun _ => DownstreamOutcome.ok
    { status := 201, headers := [], jsonBody := some (Json.obj [("result", Json.str "ok")]) }

/-- A downstream that always rejects with 403 and a JSON body. -/
def ds403 : OutboundRequest → DownstreamOutcome :=
  fun _ => DownstreamOutcome.ok
    { status := 403, headers := [], jsonBody := some (Json.obj [("detail", Json.str "forbidden")]) }

/-- A downstream that always fails with a connection error or timeout. -/
def dsDown : OutboundRequest → DownstreamOutcome :=
  fun _ => DownstreamOutcome.netFail

/-- A downstream that answers 200 with a body that is not valid JSON. -/
def dsBadBody : OutboundRequest → DownstreamOutcome :=
  fun _ => DownstreamOutcome.ok
    { status := 200, headers := [("content-type", "text/html")], jsonBody := none }

/-- The downstream dsBadBody with its response headers replaced by the
empty list. -/
def dsBadBodyMasked : OutboundRequest → DownstreamOutcome :=
  fun r => (dsBadBody r).withHeaders []

/-- A well-formed inbound body with all three fields present. -/
def bodyStd : Json :=
  Json.obj [("user_id", Json.str "u1"), ("tool_id", Json.str "t1"),
    ("input", Json.obj [("q", Json.str "hi")])]

/-- An inbound body carrying non-string values and no input field. -/
def bodyOdd : Json :=
  Json.obj [("user_id", Json.num 7), ("tool_id", Json.obj [("k", Json.null)])]

theorem respond_withHeaders (o : DownstreamOutcome) (h : List (String × String)) :
    respond (o.withHeaders h) = respond o := by
  cases o with
  | netFail => rfl
  | ok res => cases hres : res.jsonBody <;>
      simp [DownstreamOutcome.withHeaders, respond, hres]

/-- C1: for an inbound JSON-object body in which user_id and tool_id are
present, the single outbound POST carries exactly the JSON body with keys
user, tool and input bound to the inbound user_id, tool_id and input
values, an absent input field being forwarded as null. -/
theorem C1_outbound_body_exact (cfg : Config)
    (ds : OutboundRequest → DownstreamOutcome) (data : List (String × Json))
    (u t : Json) (oi : Option Json) (url : String)
    (hu : dictFind data "user_id" = some u)
    (ht : dictFind data "tool_id" = some t)
    (hi : dictFind data "input" = oi)
    (hurl : cfg.n8n_webhook_url = some url) :
    (trigger_tool cfg ds (some (Json.obj data))).calls =
      [{ url := url, authHeader := bearerHeader cfg.openai_api_key,
         body := Json.obj [("user", u), ("tool", t), ("input", oi.getD Json.null)] }] := by
  simp [trigger_tool, hurl, dictGet, hu, ht, hi]

/-- C1 witness: a concrete request with all three fields present. -/
theorem C1_outbound_body_exact_inst :
    (trigger_tool cfgStd dsOk (some bodyStd)).calls =
      [{ url := "https://n8n.example/webhook", authHeader := bearerHeader (some "sk-test"),
         body := Json.obj [("user", Json.str "u1"), ("tool", Json.str "t1"),
           ("input", Json.obj [("q", Json.str "hi")])] }] :=
  C1_outbound_body_exact cfgStd dsOk
    [("user_id", Json.str "u1"), ("tool_id", Json.str "t1"),
      ("input", Json.obj [("q", Json.str "hi")])]
    (Json.str "u1") (Json.str "t1") (some (Json.obj [("q", Json.str "hi")]))
    "https://n8n.example/webhook" rfl rfl rfl rfl

/-- C2 counterexample: the body with only tool_id present lacks user_id,
yet the handler makes exactly one outbound call and returns the downstream
200 result rather than a 400-class response. -/
theorem C2_counterexample :
    (trigger_tool cfgStd dsOk (some (Json.obj [("tool_id", Json.str "t1")]))).calls.length = 1 ∧
    (trigger_tool cfgStd dsOk (some (Json.obj [("tool_id", Json.str "t1")]))).response.status = 200 :=
  ⟨rfl, rfl⟩

/-- C2 amended: a JSON-object body missing user_id or tool_id is not
rejected: the handler performs no validation, makes its single outbound
call with JSON null in place of each missing field, and returns the
downstream outcome; no 400-class response is produced. -/
theorem C2_amended_no_validation (cfg : Config)
    (ds : OutboundRequest → DownstreamOutcome) (data : List (String × Json)) (url : String)
    (hmiss : dictFind data "user_id" = none ∨ dictFind data "tool_id" = none)
    (hurl : cfg.n8n_webhook_url = some url) :
    (trigger_tool cfg ds (some (Json.obj data))).calls =
      [{ url := url, authHeader := bearerHeader cfg.openai_api_key,
         body := Json.obj [("user", dictGet data "user_id"),
           ("tool", dictGet data "tool_id"), ("input", dictGet data "input")] }] ∧
    (dictFind data "user_id" = none → dictGet data "user_id" = Json.null) ∧
    (dictFind data "tool_id" = none → dictGet data "tool_id" = Json.null) ∧
    (trigger_tool cfg ds (some (Json.obj data))).response =
      respond (ds { url := url, authHeader := bearerHeader cfg.openai_api_key,
                    body := Json.obj [("user", dictGet data "user_id"),
                      ("tool", dictGet data "tool_id"), ("input", dictGet data "input")] }) := by
  refine ⟨?_, ?_, ?_, ?_⟩
  · simp [trigger_tool, hurl]
  · intro h; simp [dictGet, h]
  · intro h; simp [dictGet, h]
  · simp [trigger_tool, hurl]

/-- C2 amended witness: concrete body with only tool_id present. -/
theorem C2_amended_no_validation_inst :
    (trigger_tool cfgStd dsOk (some (Json.obj [("tool_id", Json.str "t1")]))).calls =
      [{ url := "https://n8n.example/webhook", authHeader := bearerHeader (some "sk-test"),
         body := Json.obj [("user", Json.null), ("tool", Json.str "t1"),
           ("input", Json.null)] }] := by
  have h := C2_amended_no_validation cfgStd dsOk [("tool_id", Json.str "t1")]
    "https://n8n.example/webhook" (Or.inl rfl) rfl
  simpa [dictGet, dictFind] using h.1

/-- C3 counterexample: a body that is not valid JSON yields status 500,
which is not a 400-class status, with no outbound call. -/
theorem C3_counterexample :
    (trigger_tool cfgStd dsOk none).response.status = 500 ∧
    ¬(400 ≤ (trigger_tool cfgStd dsOk none).response.status ∧
        (trigger_tool cfgStd dsOk none).response.status < 500) ∧
    (trigger_tool cfgStd dsOk none).calls = [] := by
  refine ⟨rfl, ?_, rfl⟩
  decide

/-- C3 amended: a body that is not valid JSON makes request.json() raise;
the caller receives the plain-text 500 Internal Server Error, not a
400-class response, and no outbound call is made. -/
theorem C3_amended_invalid_json (cfg : Config)
    (ds : OutboundRequest → DownstreamOutcome) :
    trigger_tool cfg ds none = { calls := [], response := internalServerError } :=
  rfl

/-- C4 counterexample: a successful downstream 201 response reaches the
caller with status 200, so the downstream status is not passed through. -/
theorem C4_counterexample :
    (trigger_tool cfgStd ds201 (some bodyStd)).response.status = 200 ∧
    (trigger_tool cfgStd ds201 (some bodyStd)).response.status ≠ 201 := by
  refine ⟨rfl, ?_⟩
  decide

/-- C4 amended: for every downstream response whose body parses as JSON,
the handler returns the parsed downstream body to the caller with status
200 regardless of the downstream status code; in particular downstream 200
with the ok-result body yields caller 200 with that body, but the
downstream status itself is never propagated. -/
theorem C4_amended_body_passthrough (cfg : Config)
    (ds : OutboundRequest → DownstreamOutcome) (data : List (String × Json))
    (url : String) (s : Nat) (hdrs : List (String × String)) (j : Json)
    (hurl : cfg.n8n_webhook_url = some url)
    (hds : ∀ r, ds r = DownstreamOutcome.ok { status := s, headers := hdrs, jsonBody := some j }) :
    (trigger_tool cfg ds (some (Json.obj data))).response =
      { status := 200, body := RespBody.jsonBody j } := by
  simp [trigger_tool, hurl, hds, respond]

/-- C4 amended witness: downstream 200 with the ok-result body yields
caller 200 with that body. -/
theorem C4_amended_body_passthrough_inst :
    (trigger_tool cfgStd dsOk (some bodyStd)).response =
      { status := 200, body := RespBody.jsonBody (Json.obj [("result", Json.str "ok")]) } := by
  have h := C4_amended_body_passthrough cfgStd dsOk
    [("user_id", Json.str "u1"), ("tool_id", Json.str "t1"),
      ("input", Json.obj [("q", Json.str "hi")])]
    "https://n8n.example/webhook" 200 [] (Json.obj [("result", Json.str "ok")])
    rfl (fun _ => rfl)
  exact h

/-- C5 counterexample: a downstream 403 rejection reaches the caller as a
status-200 success carrying the downstream body, not as an error
response. -/
theorem C5_counterexample :
    (trigger_tool cfgStd ds403 (some bodyStd)).response.status = 200 ∧
    (trigger_tool cfgStd ds403 (some bodyStd)).response.status < 400 ∧
    (trigger_tool cfgStd ds403 (some bodyStd)).response.body =
      RespBody.jsonBody (Json.obj [("detail", Json.str "forbidden")]) := by
  refine ⟨rfl, ?_, rfl⟩
  decide

/-- C5 amended: on downstream timeout or connection failure the caller
receives the generic plain-text 500 Internal Server Error, while a
downstream non-2xx response whose body parses as JSON is returned to the
caller as a status-200 success carrying the downstream body: the two
failure kinds are not distinguished as error classes, and a downstream 403
is surfaced as a 200 whose body is the rejection body. -/
theorem C5_amended_failure_surfacing (cfg : Config)
    (dsA dsB : OutboundRequest → DownstreamOutcome) (data : List (String × Json))
    (url : String) (s : Nat) (hdrs : List (String × String)) (j : Json)
    (hurl : cfg.n8n_webhook_url = some url)
    (hA : ∀ r, dsA r = DownstreamOutcome.netFail)
    (hB : ∀ r, dsB r = DownstreamOutcome.ok { status := s, headers := hdrs, jsonBody := some j }) :
    (trigger_tool cfg dsA (some (Json.obj data))).response = internalServerError ∧
    (trigger_tool cfg dsB (some (Json.obj data))).response =
      { status := 200, body := RespBody.jsonBody j } := by
  constructor
  · simp [trigger_tool, hurl, hA, respond]
  · simp [trigger_tool, hurl, hB, respond]

/-- C5 amended witness: a dead downstream gives the 500, and a downstream
403 gives a 200 carrying the rejection body. -/
theorem C5_amended_failure_surfacing_inst :
    (trigger_tool cfgStd dsDown (some bodyStd)).response = internalServerError ∧
    (trigger_tool cfgStd ds403 (some bodyStd)).response =
      { status := 200, body := RespBody.jsonBody (Json.obj [("detail", Json.str "forbidden")]) } := by
  have h := C5_amended_failure_surfacing cfgStd dsDown ds403
    [("user_id", Json.str "u1"), ("tool_id", Json.str "t1"),
      ("input", Json.obj [("q", Json.str "hi")])]
    "https://n8n.example/webhook" 403 [] (Json.obj [("detail", Json.str "forbidden")])
    rfl (fun _ => rfl) (fun _ => rfl)
  exact h

/-- C6 counterexample: with both variables unset, startup succeeds rather
than failing, and the missing URL is discovered during request handling as
a 500 with no outbound call; with only the credential unset, the request
goes out carrying the literal header text Bearer None. -/
theorem C6_counterexample :
    startup cfgNone = Except.ok () ∧
    (trigger_tool cfgNone dsOk (some bodyStd)).response = internalServerError ∧
    (trigger_tool cfgNone dsOk (some bodyStd)).calls = [] ∧
    (trigger_tool cfgNoKey dsOk (some bodyStd)).calls =
      [{ url := "https://n8n.example/webhook", authHeader := "Bearer None",
         body := Json.obj [("user", Json.str "u1"), ("tool", Json.str "t1"),
           ("input", Json.obj [("q", Json.str "hi")])] }] :=
  ⟨rfl, rfl, rfl, rfl⟩

/-- C6 amended: the endpoint URL and credential are read through os.getenv
inside the handler on every request; startup validates nothing, a missing
webhook URL surfaces lazily per-request as a 500 with no outbound call,
and a missing credential is never surfaced at all: the outbound request
carries the header text Bearer None. -/
theorem C6_amended_lazy_config (cfgA cfgB : Config)
    (dsA dsB : OutboundRequest → DownstreamOutcome)
    (dataA dataB : List (String × Json)) (urlB : String)
    (hurlA : cfgA.n8n_webhook_url = none)
    (hkeyB : cfgB.openai_api_key = none)
    (hurlB : cfgB.n8n_webhook_url = some urlB) :
    startup cfgA = Except.ok () ∧
    trigger_tool cfgA dsA (some (Json.obj dataA)) =
      { calls := [], response := internalServerError } ∧
    (trigger_tool cfgB dsB (some (Json.obj dataB))).calls =
      [{ url := urlB, authHeader := "Bearer None",
         body := Json.obj [("user", dictGet dataB "user_id"),
           ("tool", dictGet dataB "tool_id"), ("input", dictGet dataB "input")] }] := by
  refine ⟨rfl, ?_, ?_⟩
  · simp [trigger_tool, hurlA]
  · simp [trigger_tool, hurlB, hkeyB, bearerHeader, pyStr]

/-- C6 amended witness: concrete configurations missing the URL and the
credential respectively. -/
theorem C6_amended_lazy_config_inst :
    startup cfgNoUrl = Except.ok () ∧
    trigger_tool cfgNoUrl dsOk (some bodyStd) =
      { calls := [], response := internalServerError } ∧
    (trigger_tool cfgNoKey dsOk (some bodyStd)).calls =
      [{ url := "https://n8n.example/webhook", authHeader := "Bearer None",
         body := Json.obj [("user", Json.str "u1"), ("tool", Json.str "t1"),
           ("input", Json.obj [("q", Json.str "hi")])] }] := by
  have h := C6_amended_lazy_config cfgNoUrl cfgNoKey dsOk dsOk
    [("user_id", Json.str "u1"), ("tool_id", Json.str "t1"),
      ("input", Json.obj [("q", Json.str "hi")])]
    [("user_id", Json.str "u1"), ("tool_id", Json.str "t1"),
      ("input", Json.obj [("q", Json.str "hi")])]
    "https://n8n.example/webhook" rfl rfl rfl
  exact ⟨h.1, h.2.1, by simpa [dictGet, dictFind] using h.2.2⟩

/-- C7 counterexample: a body that is valid JSON but an array, and a valid
object body under a configuration lacking the webhook URL, both pass JSON
parsing yet produce zero outbound calls. -/
theorem C7_counterexample :
    (trigger_tool cfgStd dsOk (some (Json.arr []))).calls = [] ∧
    (trigger_tool cfgNoUrl dsOk (some bodyStd)).calls = [] :=
  ⟨rfl, rfl⟩

/-- C7 amended: for every inbound body that parses as a JSON object, with
the webhook URL configured, the handler performs exactly one outbound POST
(a single attempt, never retried), and the trace records no persistence
because the handler performs none; a non-object JSON body or a missing URL
instead raises with no outbound call. -/
theorem C7_amended_single_call (cfg : Config)
    (ds : OutboundRequest → DownstreamOutcome) (data : List (String × Json)) (url : String)
    (hurl : cfg.n8n_webhook_url = some url) :
    (trigger_tool cfg ds (some (Json.obj data))).calls.length = 1 := by
  simp [trigger_tool, hurl]

/-- C7 amended witness: one outbound call for the standard request. -/
theorem C7_amended_single_call_inst :
    (trigger_tool cfgStd dsOk (some bodyStd)).calls.length = 1 :=
  C7_amended_single_call cfgStd dsOk
    [("user_id", Json.str "u1"), ("tool_id", Json.str "t1"),
      ("input", Json.obj [("q", Json.str "hi")])]
    "https://n8n.example/webhook" rfl

/-- C8: the handler threads the process state through unchanged, and each
request's trace is a function of its own body, the configuration and the
downstream alone: handling two requests in either order yields for each
exactly the trace of handling it in isolation, with the state intact, so
requests with different tool_id values produce independent,
non-interfering outbound calls. -/
theorem C8_no_shared_mutable_state (st : ProcState)
    (ds : OutboundRequest → DownstreamOutcome) (b1 b2 : Option Json) :
    runSeq ds st [b1, b2] =
      (st, [trigger_tool st.env ds b1, trigger_tool st.env ds b2]) ∧
    runSeq ds st [b2, b1] =
      (st, [trigger_tool st.env ds b2, trigger_tool st.env ds b1]) :=
  ⟨rfl, rfl⟩

/-- C9: the downstream body is always parsed as JSON: a 2xx downstream
response whose body is not valid JSON makes res.json() raise and the
caller receives the 500 Internal Server Error; and downstream headers are
never forwarded: replacing every downstream response's headers leaves the
whole trace unchanged. -/
theorem C9_body_parsed_headers_dropped (cfg : Config)
    (ds : OutboundRequest → DownstreamOutcome) (data : List (String × Json))
    (url : String) (s : Nat) (hdrs : List (String × String))
    (hurl : cfg.n8n_webhook_url = some url)
    (h2a : 200 ≤ s) (h2b : s < 300)
    (hds : ∀ r, ds r = DownstreamOutcome.ok { status := s, headers := hdrs, jsonBody := none }) :
    (trigger_tool cfg ds (some (Json.obj data))).response = internalServerError ∧
    ∀ (dsO : OutboundRequest → DownstreamOutcome) (hdrs2 : List (String × String))
      (b : Option Json),
      trigger_tool cfg (fun r => (dsO r).withHeaders hdrs2) b = trigger_tool cfg dsO b := by
  constructor
  · simp [trigger_tool, hurl, hds, respond]
  · intro dsO hdrs2 b
    cases b with
    | none => rfl
    | some j =>
      cases j with
      | null => rfl
      | bool x => rfl
      | num x => rfl
      | str x => rfl
      | arr x => rfl
      | obj data2 => simp [trigger_tool, hurl, respond_withHeaders]

/-- C9 witness: a downstream 200 whose body is not JSON yields the 500,
and masking its headers changes nothing. -/
theorem C9_body_parsed_headers_dropped_inst :
    (200 : Nat) ≤ 200 ∧ (200 : Nat) < 300 ∧
    (trigger_tool cfgStd dsBadBody (some bodyStd)).response = internalServerError ∧
    trigger_tool cfgStd dsBadBodyMasked (some bodyStd) =
      trigger_tool cfgStd dsBadBody (some bodyStd) := by
  have h := C9_body_parsed_headers_dropped cfgStd dsBadBody
    [("user_id", Json.str "u1"), ("tool_id", Json.str "t1"),
      ("input", Json.obj [("q", Json.str "hi")])]
    "https://n8n.example/webhook" 200 [("content-type", "text/html")]
    rfl (by decide) (by decide) (fun _ => rfl)
  exact ⟨by decide, by decide, h.1, h.2 dsBadBody [] (some bodyStd)⟩

/-- C10: no type validation is performed: for every inbound JSON-object
body, whatever values of whatever JSON type sit under user_id, tool_id and
input are forwarded unchanged under the keys user, tool and input, a
missing field becoming null. -/
theorem C10_no_type_validation (cfg : Config)
    (ds : OutboundRequest → DownstreamOutcome) (data : List (String × Json)) (url : String)
    (hurl : cfg.n8n_webhook_url = some url) :
    (trigger_tool cfg ds (some (Json.obj data))).calls =
      [{ url := url, authHeader := bearerHeader cfg.openai_api_key,
         body := Json.obj [("user", dictGet data "user_id"),
           ("tool", dictGet data "tool_id"), ("input", dictGet data "input")] }] := by
  simp [trigger_tool, hurl]

/-- C10 witness: a number under user_id and an object under tool_id are
forwarded unchanged, with the absent input becoming null. -/
theorem C10_no_type_validation_inst :
    (trigger_tool cfgStd dsOk (some bodyOdd)).calls =
      [{ url := "https://n8n.example/webhook", authHeader := bearerHeader (some "sk-test"),
         body := Json.obj [("user", Json.num 7), ("tool", Json.obj [("k", Json.null)]),
           ("input", Json.null)] }] := by
  have h := C10_no_type_validation cfgStd dsOk
    [("user_id", Json.num 7), ("tool_id", Json.obj [("k", Json.null)])]
    "https://n8n.example/webhook" rfl
  simpa [dictGet, dictFind] using h
